import Mathlib

/-
  Verification of the remote-dev repository's core behaviour.

  Shallow embedding of:
  - the WebSocket server dispatch (src/laptop-server/src/websocket.js),
  - the Gemini subprocess orchestrator (src/laptop-server/src/gemini.js,
    plus the variant runners shipped in the repository),
  - the git repository manager (src/laptop-server/src/git.js),
  - the client-side WebSocket hook (useWebSocket: connect / onMessage /
    request subscription lifecycle).

  Stateful JavaScript methods are embedded as pure functions that take the
  relevant state explicitly and return the updated state together with the
  observable effects (messages sent, processes killed, pushes performed).
  Nondeterministic external events (subprocess exit, spawn failure, which
  response arrives first) are passed in as explicit outcome values.
-/

/- ───────────────────────── WebSocket server ───────────────────────── -/

/-- Ready state of a browser/ws WebSocket (CONNECTING, OPEN, CLOSING, CLOSED). -/
inductive WsReadyState where
  | connecting
  | opened
  | closing
  | closedSt
deriving DecidableEq, Repr

/-- Per-connection client record kept in `this.clients`
(websocket.js: `{ id, ws, authenticated }`; the transport handle is
modelled separately by its ready state where needed). -/
structure ClientState where
  id : String
  authenticated : Bool
deriving DecidableEq, Repr

/-- A message the server passes to `this.send` on one connection.
JSON serialization is abstracted; each constructor mirrors one object
literal in websocket.js. -/
inductive SentMsg where
  | welcome
  | authSuccess
  | authFailed (message : String)
  | errorMsg (message : String) (originalType : Option String)
  | progress (payload : String)
  | result (kind : String)
deriving DecidableEq, Repr

/-- Behaviour of a registered handler when invoked: it emits a list of
progress events and then either returns (`ok`) or raises (`raised`),
matching the try/catch around `await handler(payload, emit)` in
`handleMessage`. -/
inductive HandlerRun where
  | ok (progressEvents : List String)
  | raised (errMessage : String) (progressEvents : List String)
deriving DecidableEq, Repr

/-- Embedding of `WebSocketHandler.handleMessage` (websocket.js lines 60-99).
Arguments: the configured shared secret, the kinds with a registered
handler (`this.handlers`), the behaviour of the handler for each kind,
the client record, and the incoming message `{type, payload}` with the
payload's `secret` field (absent fields read as `none`).
Returns the updated client record, the messages passed to `this.send`
on this connection, in order, and the list of handler kinds invoked. -/
def WebSocketHandler.handleMessage (sharedSecret : String)
    (registered : List String) (run : String → HandlerRun)
    (client : ClientState) (msgType : String) (secret : Option String) :
    ClientState × List SentMsg × List String :=
  if msgType = "auth" then
    if secret = some sharedSecret then
      ({ client with authenticated := true }, [SentMsg.authSuccess], [])
    else
      (client, [SentMsg.authFailed "Invalid secret"], [])
  else if client.authenticated = false then
    (client, [SentMsg.errorMsg "Not authenticated" none], [])
  else if registered.contains msgType then
    match run msgType with
    | HandlerRun.ok evs =>
        (client, evs.map SentMsg.progress ++ [SentMsg.result msgType], [msgType])
    | HandlerRun.raised e evs =>
        (client,
         evs.map SentMsg.progress
           ++ [SentMsg.errorMsg ("Handler error: " ++ e) (some msgType)],
         [msgType])
  else
    (client, [SentMsg.errorMsg ("Unknown message type: " ++ msgType) none], [])

/-- Embedding of `WebSocketHandler.send` (websocket.js lines 101-105):
`if (ws.readyState === ws.OPEN) ws.send(JSON.stringify(data))`.
The server's client map is threaded through unchanged (the method body
never touches `this.clients`); the returned option is the transmission
that reached the wire, `none` when the socket is not open. -/
def WebSocketHandler.send (clients : List ClientState)
    (ws : WsReadyState) (data : SentMsg) :
    List ClientState × Option SentMsg :=
  if ws = WsReadyState.opened then (clients, some data) else (clients, none)

/- ───────────────────── Gemini subprocess orchestrator ───────────────────── -/

/-- Role of a conversation turn. The source stores the strings
`'user'` and `'model'`; when rendering context it prints `'model'`
turns with the label "Assistant" (gemini.js line 28), so `model` is
the assistant role. -/
inductive Role where
  | user
  | model
deriving DecidableEq, Repr

/-- One entry of a target's conversation history: `{ role, text }`. -/
structure Turn where
  role : Role
  text : String
deriving DecidableEq, Repr

/-- Result object `execute` resolves with (gemini.js lines 97-101):
`{ success: code === 0, output: fullOutput, exitCode: code }`. -/
structure ExecResult where
  success : Bool
  output : String
  exitCode : Int
deriving DecidableEq, Repr

/-- How the spawned subprocess run ends, as observed by the handlers
installed in `execute`:
- `closed code stdoutChunks stderrChunks`: the `close` event fired with
  this exit code after the given data chunks arrived on each stream;
- `spawnError`: the `error` event fired (process could not be started);
- `writeError`: `fs.writeFileSync` of the temp prompt file threw before
  the process was even spawned. -/
inductive ProcOutcome where
  | closed (code : Int) (stdoutChunks stderrChunks : List String)
  | spawnError (msg : String)
  | writeError (msg : String)
deriving DecidableEq, Repr

/-- The full prompt composed by `execute` before spawning
(gemini.js lines 24-32): prior turns under a "PREVIOUS MESSAGES"
preamble, then the current request. This text is written to the temp
input file; it does not include the current prompt as a history turn. -/
def composeFullPrompt (history : List Turn) (prompt : String) : String :=
  (if history.length > 0 then
    "PREVIOUS MESSAGES:\n"
      ++ String.join (history.map (fun msg =>
            (if msg.role = Role.user then "User" else "Assistant")
              ++ ": " ++ msg.text ++ "\n"))
      ++ "\nCURRENT REQUEST:\n"
   else "")
  ++ prompt

/-- Embedding of `GeminiRunner.execute` (src/laptop-server/src/gemini.js)
for one target: takes the target's conversation history (the list stored
in `this.histories` under `repoPath`), the prompt, and the subprocess
outcome. Returns the target's new history and the settled promise:
`Except.ok` for `resolve`, `Except.error` for `reject`.
Faithful order of events in the source:
1. `history.push({role:'user', text: prompt})` (line 35) — before the
   temp file is written and before the process is spawned;
2. on temp-file write failure or on the `error` event: `reject` (the
   history keeps only the new user turn);
3. on `close`: `fullOutput` is the concatenation of the *stdout* chunks
   (only the stdout handler does `fullOutput += text`); if
   `code === 0 && fullOutput.trim()` a `{role:'model'}` turn is pushed,
   then the promise resolves with `{success: code === 0, output, exitCode}`. -/
def GeminiRunner.execute (history : List Turn) (prompt : String)
    (out : ProcOutcome) : List Turn × Except String ExecResult :=
  let history1 := history ++ [Turn.mk Role.user prompt]
  match out with
  | ProcOutcome.writeError e => (history1, Except.error e)
  | ProcOutcome.spawnError e => (history1, Except.error e)
  | ProcOutcome.closed code stdoutChunks _ =>
      let fullOutput := String.join stdoutChunks
      let history2 :=
        if code = 0 ∧ fullOutput.trim ≠ "" then
          history1 ++ [Turn.mk Role.model fullOutput.trim]
        else history1
      (history2, Except.ok (ExecResult.mk (code == 0) fullOutput code))

/-- Result object of the original runner variant (part_005): on exit it
resolves `{success, output, error?, exitCode}` where the `error` field
carries the accumulated stderr only on non-zero exit. -/
structure ExecResultErr where
  success : Bool
  output : String
  error : Option String
  exitCode : Int
deriving DecidableEq, Repr

/-- How a spawned process run ends for the original runner variant. -/
inductive ProcEnd where
  | closedWith (code : Int)
  | errored (msg : String)
deriving DecidableEq, Repr

/-- Embedding of the close/error handlers of the original runner variant
(part_005 lines 51-74): `close` with code 0 resolves a success record,
`close` with any other code resolves a failure record carrying the
stderr text, and the `error` event rejects with a ProcessError fault. -/
def GeminiRunnerOrig.settle (e : ProcEnd) (fullOutput errorOutput : String) :
    Except String ExecResultErr :=
  match e with
  | ProcEnd.closedWith code =>
      if code = 0 then
        Except.ok (ExecResultErr.mk true fullOutput none code)
      else
        Except.ok (ExecResultErr.mk false fullOutput (some errorOutput) code)
  | ProcEnd.errored msg =>
      Except.error ("Failed to start Gemini CLI: " ++ msg)

/-- A child process, remembered together with the target (`repoPath`,
the `cwd` it was spawned with) it is working for. -/
structure Proc where
  target : String
  pid : Nat
deriving DecidableEq, Repr

/-- The runner's mutable process-tracking state. The source keeps a
single `this.activeProcess` slot on the runner instance — one slot for
all targets (only `this.histories` is keyed per target). -/
structure RunnerState where
  activeProcess : Option Proc
deriving DecidableEq, Repr

/-- Embedding of `GeminiRunner.cancel(repoPath)` (gemini.js lines 123-130):
```
if (this.activeProcess) { this.activeProcess.kill();
  this.activeProcess = null; return true; }
return false;
```
The `repoPath` parameter is accepted but never read by the body.
Returns (new state, returned boolean, processes killed). -/
def GeminiRunner.cancel (st : RunnerState) (repoPath : String) :
    RunnerState × Bool × List Proc :=
  match st.activeProcess with
  | some p => (RunnerState.mk none, true, [p])
  | none => (st, false, [])

/- ──────────────── Gemini output-chunk streaming (stdout/stderr) ──────────────── -/

/-- One `{type, text}` object passed to the `onOutput` callback. -/
structure OutputEvent where
  streamTag : String
  text : String
deriving DecidableEq, Repr

/-- Does the character list start with the given pattern? -/
def charsStartWith : List Char → List Char → Bool
  | _, [] => true
  | [], _ :: _ => false
  | c :: cs, p :: ps => c = p && charsStartWith cs ps

/-- Does the pattern occur anywhere in the character list? -/
def charsContain (s pat : List Char) : Bool :=
  match s with
  | [] => charsStartWith [] pat
  | _ :: rest => charsStartWith s pat || charsContain rest pat

/-- `text.includes(pat)`: substring containment on the underlying
character sequences. -/
def strContains (text pat : String) : Bool :=
  charsContain text.data pat.data

/-- Stdout `data` handler of the active runner (gemini.js lines 71-76):
accumulates, echoes to the server console, and always forwards
`{type:'stdout', text}` to `onOutput`. Returns
(echoed to console?, event passed to `onOutput`). -/
def geminiStdoutChunk (text : String) : Bool × Option OutputEvent :=
  (true, some (OutputEvent.mk "stdout" text))

/-- Stderr `data` handler of the active runner (gemini.js lines 78-84):
the console echo is skipped for chunks containing the informational
noise substring, but `onOutput` receives every chunk. -/
def geminiStderrChunk (text : String) : Bool × Option OutputEvent :=
  (!(strContains text "Loaded cached credentials"),
   some (OutputEvent.mk "stderr" text))

/-- Stdout `data` handler of the PowerShell runner variant
(part_004 lines 129-140): after accumulating into `fullOutput` it
*returns early* on noise chunks, so neither the console echo nor the
`onOutput` call happens for them. -/
def psStdoutChunk (text : String) : Bool × Option OutputEvent :=
  if strContains text "YOLO mode is enabled"
      || strContains text "Loaded cached credentials" then
    (false, none)
  else
    (true, some (OutputEvent.mk "stdout" text))

/-- Stderr `data` handler of the PowerShell runner variant
(part_004 lines 142-152): echo and `onOutput` both happen only for
non-noise chunks. -/
def psStderrChunk (text : String) : Bool × Option OutputEvent :=
  if !(strContains text "Loaded cached credentials")
      && !(strContains text "YOLO mode is enabled")
      && !(strContains text "Passing args to a child process") then
    (true, some (OutputEvent.mk "stderr" text))
  else
    (false, none)

/- ───────────────────── Repository state manager (git.js) ───────────────────── -/

/-- One commit of a working copy, projected to what the manager reads. -/
structure Commit where
  hash : String
  message : String
deriving DecidableEq, Repr

/-- State of a target's working copy, abstracting the on-disk git
repository: commit list (most recent first), the set of working-tree
changes that `git add -A` would stage, the configured remote URL for
`origin`, the current branch (`git rev-parse --abbrev-ref HEAD`), and
the per-repo user config written by `addConfig`. -/
structure GitRepo where
  commits : List Commit
  workingChanges : List String
  remoteUrl : String
  branch : String
  userEmail : Option String
  userName : Option String
deriving DecidableEq, Repr

/-- A `git push` performed against the remote. -/
structure PushEvent where
  remote : String
  branch : String
  force : Bool
deriving DecidableEq, Repr

/-- Return object of `commitAndPush`: either
`{ committed: false, message: 'No changes to commit' }` or
`{ committed: true, hash, summary, branch }` (the `summary` object is
abstracted away). -/
structure CommitPushResult where
  committed : Bool
  message : Option String
  hash : Option String
  branch : Option String
deriving DecidableEq, Repr

/-- Embedding of `GitManager.commitAndPush` (git.js lines 68-102).
The commit hash produced by git is abstracted as a fresh name derived
from the commit count. Returns the updated working copy, the pushes
performed, and the result object. Faithful control flow:
configure identity; stage all (`add -A`); if `status.files` is empty
return `{committed: false}` with no commit and no push; otherwise
commit with `message`, resolve the current branch, rewrite the
`origin` URL with the fresh token, push, and return
`{committed: true, ...}`. -/
def GitManager.commitAndPush (repo : GitRepo)
    (owner name message token : String) :
    GitRepo × List PushEvent × CommitPushResult :=
  let repo1 := { repo with
    userEmail := some "remote-dev@localhost",
    userName := some "Remote Dev System" }
  if repo1.workingChanges.length = 0 then
    (repo1, [], CommitPushResult.mk false (some "No changes to commit") none none)
  else
    let newCommit := Commit.mk ("h" ++ toString (repo1.commits.length + 1)) message
    let repo2 := { repo1 with
      commits := newCommit :: repo1.commits,
      workingChanges := [] }
    let remoteUrl :=
      "https://" ++ token ++ "@github.com/" ++ owner ++ "/" ++ name ++ ".git"
    let repo3 := { repo2 with remoteUrl := remoteUrl }
    (repo3, [PushEvent.mk "origin" repo2.branch false],
     CommitPushResult.mk true none (some newCommit.hash) (some repo2.branch))

/-- `GitManager.getRepoPath(owner, repo)` (git.js lines 23-25):
`path.join(this.reposDir, owner, repo)`. -/
def GitManager.getRepoPath (reposDir owner repo : String) : String :=
  reposDir ++ "/" ++ owner ++ "/" ++ repo

/-- Action component of the `cloneOrPull` result. -/
inductive CloneAction where
  | cloned
  | pulled
deriving DecidableEq, Repr

/-- The directories that exist on disk, for `fs.existsSync` /
`fs.mkdirSync`. -/
structure FileSystem where
  existingPaths : List String
deriving DecidableEq, Repr

/-- `fs.existsSync(p)`. -/
def FileSystem.pathExists (fs : FileSystem) (p : String) : Bool :=
  fs.existingPaths.contains p

/-- Embedding of `GitManager.cloneOrPull` (git.js lines 31-50).
If the repo path exists: pull `origin main`, falling back to
`origin master` on failure (neither changes which paths exist), and
return `pulled`. Otherwise: create the owner directory when missing
(`path.dirname(repoPath)` = `reposDir/owner`), clone — which creates
the repo path — and return `cloned`. -/
def GitManager.cloneOrPull (fs : FileSystem)
    (reposDir owner repo token : String) :
    FileSystem × CloneAction × String :=
  let repoPath := GitManager.getRepoPath reposDir owner repo
  if fs.pathExists repoPath then
    (fs, CloneAction.pulled, repoPath)
  else
    let ownerDir := reposDir ++ "/" ++ owner
    let fs1 :=
      if fs.pathExists ownerDir then fs
      else FileSystem.mk (ownerDir :: fs.existingPaths)
    let fs2 := FileSystem.mk (repoPath :: fs1.existingPaths)
    (fs2, CloneAction.cloned, repoPath)

/- ───────────────────── Client connection manager (useWebSocket) ───────────────────── -/

/-- A client-side WebSocket transport: a fresh id (to count distinct
transports ever created) and its ready state. -/
structure WsTransport where
  tid : Nat
  readyState : WsReadyState
deriving DecidableEq, Repr

/-- Client-side connection state: `wsRef.current` plus a counter of
`new WebSocket(...)` constructions performed so far. -/
structure ClientConn where
  wsRef : Option WsTransport
  created : Nat
deriving DecidableEq, Repr

/-- Embedding of the hook's `connect` (part_002 lines 180-196):
```
if (wsRef.current && (wsRef.current.readyState === WebSocket.OPEN
    || wsRef.current.readyState === WebSocket.CONNECTING)) return;
const ws = new WebSocket(wsUrl); wsRef.current = ws;
```
A freshly constructed WebSocket starts in the CONNECTING state. -/
def useWebSocket.connect (st : ClientConn) : ClientConn :=
  match st.wsRef with
  | some ws =>
      if ws.readyState = WsReadyState.opened
          ∨ ws.readyState = WsReadyState.connecting then st
      else
        ClientConn.mk (some (WsTransport.mk st.created WsReadyState.connecting))
          (st.created + 1)
  | none =>
      ClientConn.mk (some (WsTransport.mk st.created WsReadyState.connecting))
        (st.created + 1)

/-- The hook's handler registry `messageHandlersRef.current`:
a map from message kind to the registered handler instances in
registration order (handlers identified by a token). -/
abbrev HandlerMap := List (String × List Nat)

/-- `map.get(k)` with a missing key read as the empty list. -/
def hmGet (m : HandlerMap) (k : String) : List Nat :=
  match m with
  | [] => []
  | (k', hs) :: rest => if k' = k then hs else hmGet rest k

/-- `map.set(k, hs)` on the association list. -/
def hmSet (m : HandlerMap) (k : String) (hs : List Nat) : HandlerMap :=
  match m with
  | [] => [(k, hs)]
  | (k', hs') :: rest =>
      if k' = k then (k, hs) :: rest else (k', hs') :: hmSet rest k hs

/-- Embedding of the hook's `onMessage(type, handler)` registration:
create the entry when absent and push the handler. -/
def onMessageReg (m : HandlerMap) (k : String) (h : Nat) : HandlerMap :=
  hmSet m k (hmGet m k ++ [h])

/-- `handlers.splice(handlers.indexOf(handler), 1)`: remove the first
occurrence, leave the list unchanged when the handler is absent. -/
def removeFirst (hs : List Nat) (h : Nat) : List Nat :=
  match hs with
  | [] => []
  | x :: rest => if x = h then rest else x :: removeFirst rest h

/-- Embedding of the unsubscribe closure returned by `onMessage`. -/
def unsubscribeReg (m : HandlerMap) (k : String) (h : Nat) : HandlerMap :=
  hmSet m k (removeFirst (hmGet m k) h)

/-- The four ways one `request(type, payload)` call can settle. -/
inductive ReqOutcome where
  | resultReceived
  | errorCorrelated
  | timeoutFired
  | sendFailed
deriving DecidableEq, Repr

/-- Embedding of the subscription lifecycle of the hook's `request`
(part_002 lines 299-328), tracking only the handler map. The call
registers `hres` on `type + "_result"` and `herr` on `"error"`, then
runs exactly the cleanup calls present on each code path:
- result received: the result handler calls `unsubscribe()` only
  (the source does not call `errorUnsub` there);
- correlated error: the error handler calls `unsubscribe()` and
  `errorUnsub()`;
- timeout fired: the timeout callback only rejects — it removes no
  subscription;
- send returned false: `unsubscribe()` and `errorUnsub()` are called. -/
def requestSubs (m : HandlerMap) (reqType : String) (hres herr : Nat)
    (out : ReqOutcome) : HandlerMap :=
  let m1 := onMessageReg m (reqType ++ "_result") hres
  let m2 := onMessageReg m1 "error" herr
  match out with
  | ReqOutcome.resultReceived => unsubscribeReg m2 (reqType ++ "_result") hres
  | ReqOutcome.errorCorrelated =>
      unsubscribeReg (unsubscribeReg m2 (reqType ++ "_result") hres) "error" herr
  | ReqOutcome.timeoutFired => m2
  | ReqOutcome.sendFailed =>
      unsubscribeReg (unsubscribeReg m2 (reqType ++ "_result") hres) "error" herr

/- ───────────────────────────── Theorems ───────────────────────────── -/

/-- Claim C1: on an unauthenticated connection, any message whose kind is
not `auth` is answered with exactly one `error` reply ("Not
authenticated") and invokes no registered handler; a handler can only be
invoked when the connection's authenticated flag is already true, and
the flag becomes true exactly through an `auth` message carrying the
configured shared secret. -/
theorem handleMessage_auth_gate (sharedSecret : String)
    (registered : List String) (run : String → HandlerRun)
    (client : ClientState) (msgType : String) (secret : Option String) :
    (client.authenticated = false → msgType ≠ "auth" →
      WebSocketHandler.handleMessage sharedSecret registered run client msgType secret
        = (client, [SentMsg.errorMsg "Not authenticated" none], [])) ∧
    ((WebSocketHandler.handleMessage sharedSecret registered run client msgType secret).2.2 ≠ []
      → client.authenticated = true) ∧
    (msgType = "auth" → secret = some sharedSecret →
      (WebSocketHandler.handleMessage sharedSecret registered run client msgType secret).1.authenticated
        = true) := by
  refine ⟨?_, ?_, ?_⟩
  · intro hA hT
    simp [WebSocketHandler.handleMessage, hT, hA]
  · intro hinv
    by_contra hA
    rw [Bool.not_eq_true] at hA
    by_cases hT : msgType = "auth"
    · subst hT
      by_cases hs : secret = some sharedSecret
      · simp [WebSocketHandler.handleMessage, hs] at hinv
      · simp [WebSocketHandler.handleMessage, hs] at hinv
    · simp [WebSocketHandler.handleMessage, hT, hA] at hinv
  · intro hT hs
    subst hT
    simp [WebSocketHandler.handleMessage, hs]

/-- Witness for C1: a `clone_repo` message on a fresh (unauthenticated)
connection yields exactly the "Not authenticated" error and invokes no
handler. -/
theorem handleMessage_auth_gate_witness :
    WebSocketHandler.handleMessage "s" ["clone_repo"] (fun _ => HandlerRun.ok [])
        (ClientState.mk "c1" false) "clone_repo" none
      = (ClientState.mk "c1" false, [SentMsg.errorMsg "Not authenticated" none], []) :=
  (handleMessage_auth_gate "s" ["clone_repo"] (fun _ => HandlerRun.ok [])
      (ClientState.mk "c1" false) "clone_repo" none).1 rfl (by decide)

/-- Claim C10: the server's `send` transmits the message only when the
socket's ready state is OPEN; for any other ready state it is a silent
no-op that transmits nothing and leaves the server's client map
unchanged. (The embedding is a total function, so no fault is raised in
either case.) -/
theorem send_gated_on_open (clients : List ClientState)
    (rs : WsReadyState) (data : SentMsg) :
    (rs ≠ WsReadyState.opened →
      WebSocketHandler.send clients rs data = (clients, none)) ∧
    WebSocketHandler.send clients WsReadyState.opened data = (clients, some data) := by
  constructor
  · intro h
    simp [WebSocketHandler.send, h]
  · simp [WebSocketHandler.send]

/-- Witness for C10: a welcome reply addressed to a closed socket is
dropped and the client map is untouched. -/
theorem send_gated_on_open_witness :
    WebSocketHandler.send [ClientState.mk "c1" true] WsReadyState.closedSt SentMsg.welcome
      = ([ClientState.mk "c1" true], none) :=
  (send_gated_on_open [ClientState.mk "c1" true] WsReadyState.closedSt SentMsg.welcome).1
    (by decide)

/-- Claim C2: every `execute` invocation appends exactly one user turn to
the target's history (also when the run later fails before or after the
spawn), and appends one assistant (`model`) turn exactly when the
subprocess exited with code 0 and the accumulated output is non-empty
after trimming; a failed or empty run leaves only the user turn. -/
theorem execute_history_growth (history : List Turn) (prompt : String)
    (out : ProcOutcome) :
    (∃ rest, (GeminiRunner.execute history prompt out).1
        = history ++ [Turn.mk Role.user prompt] ++ rest
      ∧ rest.length ≤ 1 ∧ ∀ t ∈ rest, t.role = Role.model) ∧
    ((GeminiRunner.execute history prompt out).1.length = history.length + 2 ↔
      ∃ so se, out = ProcOutcome.closed 0 so se ∧ (String.join so).trim ≠ "") ∧
    (∀ code so se, out = ProcOutcome.closed code so se →
      code ≠ 0 ∨ (String.join so).trim = "" →
      (GeminiRunner.execute history prompt out).1
        = history ++ [Turn.mk Role.user prompt]) ∧
    (∀ e, out = ProcOutcome.spawnError e ∨ out = ProcOutcome.writeError e →
      (GeminiRunner.execute history prompt out).1
        = history ++ [Turn.mk Role.user prompt]) := by
  cases out with
  | writeError e =>
    refine ⟨⟨[], by simp [GeminiRunner.execute], by simp, by simp⟩, ?_, ?_, ?_⟩
    · constructor
      · intro h
        simp [GeminiRunner.execute] at h
      · rintro ⟨so, se, h, -⟩
        cases h
    · rintro code so se h
      cases h
    · intro e' _
      simp [GeminiRunner.execute]
  | spawnError e =>
    refine ⟨⟨[], by simp [GeminiRunner.execute], by simp, by simp⟩, ?_, ?_, ?_⟩
    · constructor
      · intro h
        simp [GeminiRunner.execute] at h
      · rintro ⟨so, se, h, -⟩
        cases h
    · rintro code so se h
      cases h
    · intro e' _
      simp [GeminiRunner.execute]
  | closed code so se =>
    by_cases h : code = 0 ∧ (String.join so).trim ≠ ""
    · refine ⟨⟨[Turn.mk Role.model (String.join so).trim], ?_, by simp, by simp⟩,
        ?_, ?_, ?_⟩
      · simp [GeminiRunner.execute, h]
      · constructor
        · intro _
          exact ⟨so, se, by rw [h.1], h.2⟩
        · intro _
          simp [GeminiRunner.execute, h]
      · intro code' so' se' heq hbad
        injection heq with h1 h2 h3
        subst h1; subst h2
        rcases hbad with hbad | hbad
        · exact absurd h.1 hbad
        · exact absurd hbad h.2
      · intro e' h'
        rcases h' with h' | h' <;> cases h'
    · refine ⟨⟨[], ?_, by simp, by simp⟩, ?_, ?_, ?_⟩
      · simp [GeminiRunner.execute, h]
      · constructor
        · intro hlen
          simp [GeminiRunner.execute, h] at hlen
        · rintro ⟨so', se', heq, hne⟩
          injection heq with h1 h2 h3
          subst h1; subst h2
          exact absurd ⟨rfl, hne⟩ h
      · intro code' so' se' heq hbad
        simp [GeminiRunner.execute, h]
      · intro e' h'
        rcases h' with h' | h' <;> cases h'

/-- Witness for C2: a run that exits with code 2 leaves only the user
turn in the history. -/
theorem execute_history_growth_witness :
    (GeminiRunner.execute [] "p" (ProcOutcome.closed 2 [] [])).1
      = [] ++ [Turn.mk Role.user "p"] :=
  (execute_history_growth [] "p" (ProcOutcome.closed 2 [] [])).2.2.1 2 [] [] rfl
    (Or.inl (by decide))

/-- Claim C3 (code bug): the claim says every outcome of `request`
removes both subscriptions it registered. On an empty handler map, a
`clone_repo` request that registers handlers 0 and 1 behaves as follows:
after its result is received, the `error` subscription is still
registered; after a timeout, both subscriptions are still registered;
only the correlated-error and send-failed paths remove both. -/
theorem request_subscription_leak :
    hmGet (requestSubs [] "clone_repo" 0 1 ReqOutcome.resultReceived) "error" = [1] ∧
    hmGet (requestSubs [] "clone_repo" 0 1 ReqOutcome.resultReceived)
      "clone_repo_result" = [] ∧
    hmGet (requestSubs [] "clone_repo" 0 1 ReqOutcome.timeoutFired)
      "clone_repo_result" = [0] ∧
    hmGet (requestSubs [] "clone_repo" 0 1 ReqOutcome.timeoutFired) "error" = [1] ∧
    hmGet (requestSubs [] "clone_repo" 0 1 ReqOutcome.errorCorrelated)
      "clone_repo_result" = [] ∧
    hmGet (requestSubs [] "clone_repo" 0 1 ReqOutcome.errorCorrelated) "error" = [] ∧
    hmGet (requestSubs [] "clone_repo" 0 1 ReqOutcome.sendFailed)
      "clone_repo_result" = [] ∧
    hmGet (requestSubs [] "clone_repo" 0 1 ReqOutcome.sendFailed) "error" = [] := by
  decide

/-- Claim C4 counterexample: with a process spawned for target
"alice/projA" tracked in the (single, global) active slot, cancelling
the different target "bob/projB" — which has no process of its own —
returns true and kills the process belonging to "alice/projA". -/
theorem cancel_ignores_target_cex :
    (GeminiRunner.cancel (RunnerState.mk (some (Proc.mk "alice/projA" 7)))
        "bob/projB").2.1 = true ∧
    (GeminiRunner.cancel (RunnerState.mk (some (Proc.mk "alice/projA" 7)))
        "bob/projB").2.2 = [Proc.mk "alice/projA" 7] ∧
    ("alice/projA" : String) ≠ "bob/projB" := by
  refine ⟨rfl, rfl, by decide⟩

/-- Claim C4 as amended: `cancel(target)` ignores its target argument and
operates on the single global active-process slot — it returns true and
kills exactly the tracked process when one exists, returns false and
kills nothing otherwise; afterwards the slot is empty, so a second
`cancel` (on the same or any target) returns false. In particular two
successive `cancel` calls with no tracked process both return false. -/
theorem cancel_global_slot (st : RunnerState) (t t2 : String) :
    ((GeminiRunner.cancel st t).2.1 = st.activeProcess.isSome) ∧
    ((GeminiRunner.cancel st t).2.2 = st.activeProcess.toList) ∧
    ((GeminiRunner.cancel st t).1.activeProcess = none) ∧
    ((GeminiRunner.cancel (GeminiRunner.cancel st t).1 t2).2.1 = false) ∧
    (st.activeProcess = none →
      (GeminiRunner.cancel st t).2.1 = false ∧
      (GeminiRunner.cancel (GeminiRunner.cancel st t).1 t2).2.1 = false) := by
  cases st with
  | mk active =>
    cases active with
    | none =>
      refine ⟨rfl, rfl, rfl, rfl, fun _ => ⟨rfl, rfl⟩⟩
    | some p =>
      refine ⟨rfl, rfl, rfl, rfl, fun h => by cases h⟩

/-- Witness for C4 (amended): with no tracked process, two successive
`cancel` calls on "o/r" both return false. -/
theorem cancel_global_slot_witness :
    (GeminiRunner.cancel (RunnerState.mk none) "o/r").2.1 = false ∧
    (GeminiRunner.cancel (GeminiRunner.cancel (RunnerState.mk none) "o/r").1
      "o/r").2.1 = false :=
  (cancel_global_slot (RunnerState.mk none) "o/r" "o/r").2.2.2.2 rfl

/-- Claim C5: a run whose subprocess exits with a non-zero code settles
normally (resolves) with `{success: false, output, exitCode}` — and in
the original runner variant with `{success: false, output, error,
exitCode}` — while a spawn failure makes the call raise (reject) instead
of resolving. -/
theorem execute_nonzero_resolves (history : List Turn)
    (prompt : String) (code : Int) (so se : List String)
    (fullOutput errorOutput emsg : String) (hc : code ≠ 0) :
    (GeminiRunner.execute history prompt (ProcOutcome.closed code so se)).2
      = Except.ok (ExecResult.mk false (String.join so) code) ∧
    GeminiRunnerOrig.settle (ProcEnd.closedWith code) fullOutput errorOutput
      = Except.ok (ExecResultErr.mk false fullOutput (some errorOutput) code) ∧
    (GeminiRunner.execute history prompt (ProcOutcome.spawnError emsg)).2
      = Except.error emsg ∧
    GeminiRunnerOrig.settle (ProcEnd.errored emsg) fullOutput errorOutput
      = Except.error ("Failed to start Gemini CLI: " ++ emsg) := by
  refine ⟨?_, ?_, rfl, rfl⟩
  · have hb : (code == 0) = false := by
      simpa using hc
    simp [GeminiRunner.execute, hb]
  · simp [GeminiRunnerOrig.settle, hc]

/-- Witness for C5: exit code 1 resolves with a failure record in both
runners, while a spawn error rejects. -/
theorem execute_nonzero_resolves_witness :
    (GeminiRunner.execute [] "p" (ProcOutcome.closed 1 ["out"] [])).2
      = Except.ok (ExecResult.mk false (String.join ["out"]) 1) ∧
    GeminiRunnerOrig.settle (ProcEnd.closedWith 1) "out" "err"
      = Except.ok (ExecResultErr.mk false "out" (some "err") 1) ∧
    (GeminiRunner.execute [] "p" (ProcOutcome.spawnError "ENOENT")).2
      = Except.error "ENOENT" ∧
    GeminiRunnerOrig.settle (ProcEnd.errored "ENOENT") "out" "err"
      = Except.error ("Failed to start Gemini CLI: " ++ "ENOENT") :=
  execute_nonzero_resolves [] "p" 1 ["out"] [] "out" "err" "ENOENT" (by decide)

/-- Claim C6: `commitAndPush` on a working tree with nothing staged
returns `{committed: false}` with the commit list unchanged and no push
performed; with at least one staged change it commits with the given
message, rewrites the origin URL with the credential, pushes the current
branch once, and returns `{committed: true, hash, branch}`. -/
theorem commitAndPush_clean_tree (repo : GitRepo)
    (owner name message token : String) :
    (repo.workingChanges = [] →
      (GitManager.commitAndPush repo owner name message token).2.2.committed = false ∧
      (GitManager.commitAndPush repo owner name message token).1.commits = repo.commits ∧
      (GitManager.commitAndPush repo owner name message token).2.1 = []) ∧
    (repo.workingChanges ≠ [] →
      (GitManager.commitAndPush repo owner name message token).2.2.committed = true ∧
      (GitManager.commitAndPush repo owner name message token).1.commits.length
        = repo.commits.length + 1 ∧
      ((GitManager.commitAndPush repo owner name message token).1.commits.head?.map
          Commit.message) = some message ∧
      (GitManager.commitAndPush repo owner name message token).1.remoteUrl
        = "https://" ++ token ++ "@github.com/" ++ owner ++ "/" ++ name ++ ".git" ∧
      (GitManager.commitAndPush repo owner name message token).2.1
        = [PushEvent.mk "origin" repo.branch false] ∧
      (GitManager.commitAndPush repo owner name message token).2.2.branch
        = some repo.branch ∧
      (GitManager.commitAndPush repo owner name message token).2.2.hash.isSome
        = true) := by
  constructor
  · intro h
    refine ⟨?_, ?_, ?_⟩ <;> simp [GitManager.commitAndPush, h]
  · intro h
    have hlen : ¬ repo.workingChanges.length = 0 := by
      simpa [List.length_eq_zero] using h
    refine ⟨?_, ?_, ?_, ?_, ?_, ?_, ?_⟩ <;>
      simp [GitManager.commitAndPush, hlen]

/-- Witness for C6: a clean tree creates no commit and pushes nothing,
while a tree with one changed file commits it and pushes the branch. -/
theorem commitAndPush_clean_tree_witness :
    (GitManager.commitAndPush (GitRepo.mk [] [] "u" "main" none none)
        "o" "r" "m" "tok").2.2.committed = false ∧
    (GitManager.commitAndPush (GitRepo.mk [] [] "u" "main" none none)
        "o" "r" "m" "tok").1.commits = [] ∧
    (GitManager.commitAndPush (GitRepo.mk [] ["a.txt"] "u" "main" none none)
        "o" "r" "m" "tok").2.2.committed = true ∧
    (GitManager.commitAndPush (GitRepo.mk [] ["a.txt"] "u" "main" none none)
        "o" "r" "m" "tok").2.1 = [PushEvent.mk "origin" "main" false] :=
  ⟨((commitAndPush_clean_tree (GitRepo.mk [] [] "u" "main" none none)
      "o" "r" "m" "tok").1 rfl).1,
   ((commitAndPush_clean_tree (GitRepo.mk [] [] "u" "main" none none)
      "o" "r" "m" "tok").1 rfl).2.1,
   ((commitAndPush_clean_tree (GitRepo.mk [] ["a.txt"] "u" "main" none none)
      "o" "r" "m" "tok").2 (by decide)).1,
   ((commitAndPush_clean_tree (GitRepo.mk [] ["a.txt"] "u" "main" none none)
      "o" "r" "m" "tok").2 (by decide)).2.2.2.2.1⟩

/-- After any `cloneOrPull`, the repo path exists: the pull branch found
it already present, the clone branch just created it. -/
lemma cloneOrPull_pathExists_after (fs : FileSystem)
    (reposDir owner repo token : String) :
    ((GitManager.cloneOrPull fs reposDir owner repo token).1).pathExists
      (GitManager.getRepoPath reposDir owner repo) = true := by
  by_cases h : fs.pathExists (GitManager.getRepoPath reposDir owner repo) = true
  · simp [GitManager.cloneOrPull, h]
  · rw [Bool.not_eq_true] at h
    have h' : GitManager.getRepoPath reposDir owner repo ∉ fs.existingPaths := by
      simpa [FileSystem.pathExists] using h
    simp [GitManager.cloneOrPull, FileSystem.pathExists, h']

/-- Claim C7: `cloneOrPull` returns `cloned` exactly when the resolved
local path did not exist beforehand, its action is always `cloned` or
`pulled`, and repeating the call on the resulting state returns
`pulled`. -/
theorem cloneOrPull_action (fs : FileSystem)
    (reposDir owner repo token : String) :
    ((GitManager.cloneOrPull fs reposDir owner repo token).2.1 = CloneAction.cloned
      ↔ fs.pathExists (GitManager.getRepoPath reposDir owner repo) = false) ∧
    ((GitManager.cloneOrPull fs reposDir owner repo token).2.1 = CloneAction.cloned
      ∨ (GitManager.cloneOrPull fs reposDir owner repo token).2.1
          = CloneAction.pulled) ∧
    ((GitManager.cloneOrPull (GitManager.cloneOrPull fs reposDir owner repo token).1
        reposDir owner repo token).2.1 = CloneAction.pulled) := by
  have hsecond : (GitManager.cloneOrPull
      (GitManager.cloneOrPull fs reposDir owner repo token).1
      reposDir owner repo token).2.1 = CloneAction.pulled := by
    have hafter := cloneOrPull_pathExists_after fs reposDir owner repo token
    generalize (GitManager.cloneOrPull fs reposDir owner repo token).1 = fs'
      at hafter ⊢
    simp [GitManager.cloneOrPull, hafter]
  by_cases h : fs.pathExists (GitManager.getRepoPath reposDir owner repo) = true
  · refine ⟨?_, ?_, hsecond⟩
    · simp [GitManager.cloneOrPull, h]
    · right
      simp [GitManager.cloneOrPull, h]
  · rw [Bool.not_eq_true] at h
    refine ⟨?_, ?_, hsecond⟩
    · simp [GitManager.cloneOrPull, h]
    · left
      simp [GitManager.cloneOrPull, h]

/-- Claim C9: while a transport is already open (or still opening),
`connect()` is a no-op: the state is unchanged, and two consecutive
calls leave the transport-creation counter — hence the number of live
transports — untouched. -/
theorem connect_idempotent (st : ClientConn) (ws : WsTransport)
    (h : st.wsRef = some ws)
    (hopen : ws.readyState = WsReadyState.opened
      ∨ ws.readyState = WsReadyState.connecting) :
    useWebSocket.connect st = st ∧
    useWebSocket.connect (useWebSocket.connect st) = st ∧
    (useWebSocket.connect (useWebSocket.connect st)).created = st.created := by
  have h1 : useWebSocket.connect st = st := by
    simp only [useWebSocket.connect, h]
    exact if_pos hopen
  refine ⟨h1, ?_, ?_⟩
  · rw [h1, h1]
  · rw [h1, h1]

/-- Witness for C9: with an open transport already in `wsRef`, two
consecutive `connect()` calls change nothing and create no second
transport. -/
theorem connect_idempotent_witness :
    useWebSocket.connect (ClientConn.mk (some (WsTransport.mk 0 WsReadyState.opened)) 1)
      = ClientConn.mk (some (WsTransport.mk 0 WsReadyState.opened)) 1 ∧
    useWebSocket.connect (useWebSocket.connect
        (ClientConn.mk (some (WsTransport.mk 0 WsReadyState.opened)) 1))
      = ClientConn.mk (some (WsTransport.mk 0 WsReadyState.opened)) 1 ∧
    (useWebSocket.connect (useWebSocket.connect
        (ClientConn.mk (some (WsTransport.mk 0 WsReadyState.opened)) 1))).created = 1 :=
  connect_idempotent (ClientConn.mk (some (WsTransport.mk 0 WsReadyState.opened)) 1)
    (WsTransport.mk 0 WsReadyState.opened) rfl (Or.inl rfl)

/-- Claim C8 counterexample: in the PowerShell runner variant, a raw
stdout chunk containing the known noise substring "YOLO mode is
enabled" is suppressed not only from the console echo but also from
`onOutput`, which receives nothing for it; likewise a stderr noise
chunk. -/
theorem ps_noise_dropped_cex :
    (psStdoutChunk "YOLO mode is enabled\n").2 = none ∧
    strContains "YOLO mode is enabled\n" "YOLO mode is enabled" = true ∧
    (psStderrChunk "Loaded cached credentials\n").2 = none := by
  decide

/-- Claim C8 as amended: in the active runner
(src/laptop-server/src/gemini.js) every raw stdout and stderr chunk is
forwarded to `onOutput` tagged with its stream type, and a stderr chunk
containing the noise substring is suppressed from the console echo while
still being forwarded; in the PowerShell runner variant, a chunk
containing a known noise substring is suppressed from the console echo
and from `onOutput` alike. -/
theorem gemini_chunks_forwarded (text : String) :
    (geminiStdoutChunk text).2 = some (OutputEvent.mk "stdout" text) ∧
    (geminiStderrChunk text).2 = some (OutputEvent.mk "stderr" text) ∧
    (strContains text "Loaded cached credentials" = true →
      (geminiStderrChunk text).1 = false) ∧
    (strContains text "YOLO mode is enabled" = true →
      psStdoutChunk text = (false, none)) := by
  refine ⟨rfl, rfl, ?_, ?_⟩
  · intro h
    simp [geminiStderrChunk, h]
  · intro h
    simp [psStdoutChunk, h]

/-- Witness for C8 (amended): the stderr noise chunk is not echoed but
is still forwarded by the active runner; the stdout noise chunk is
dropped entirely by the PowerShell variant. -/
theorem gemini_chunks_forwarded_witness :
    (geminiStderrChunk "Loaded cached credentials\n").1 = false ∧
    (geminiStderrChunk "Loaded cached credentials\n").2
      = some (OutputEvent.mk "stderr" "Loaded cached credentials\n") ∧
    psStdoutChunk "YOLO mode is enabled\n" = (false, none) :=
  ⟨(gemini_chunks_forwarded "Loaded cached credentials\n").2.2.1 (by decide),
   (gemini_chunks_forwarded "Loaded cached credentials\n").2.1,
   (gemini_chunks_forwarded "YOLO mode is enabled\n").2.2.2 (by decide)⟩
